import Mathlib

/-!
Shallow embedding of the SharePoint webhook receiver
(`src/functions/httpTriggerWebhook.ts` and `src/serviceBusService.ts`):
the `actualValidateTokenHandler` dispatch/intake pipeline and the
`AzureServiceBusService` queue publisher.

External I/O (`request.json()`, `request.text()`, the Service Bus SDK
calls, `context.log/warn/error`) is modelled by explicit inputs and by
event/log traces in the results.  JavaScript string truthiness
(`if (s)` on a `string | null | undefined` value) is modelled by
`jsTruthy` on `Option String`.
-/

/-- JavaScript truthiness of a `string | null | undefined` value:
truthy exactly when present and non-empty. -/
def jsTruthy : Option String → Bool
  | none => false
  | some s => s ≠ ""

/-- One SharePoint change notification, as declared by the
`SharePointNotification` interface.  `clientState` and `changeType`
are optional fields (`?:` in the source). -/
structure SharePointNotification where
  subscriptionId : String
  clientState : Option String
  expirationDateTime : String
  resource : String
  tenantId : String
  siteUrl : String
  webId : String
  changeType : Option String
  deriving Repr, DecidableEq

/-- What `await request.json()` can observably produce for the handler,
which only inspects (a) JS truthiness of the parsed value and (b) the
top-level `value` array.
  * `falsy`: the body decoded to a JS-falsy JSON value
    (`null`, `false`, `0`, `""`).
  * `noValueField`: a truthy decoded value with no iterable top-level
    `value` array (e.g. an object without that field).
  * `payload`: a truthy object carrying a `value` array of
    notifications (the `SharePointNotificationPayload` shape). -/
inductive ParsedJson where
  | falsy
  | noValueField
  | payload (value : List SharePointNotification)
  deriving Repr, DecidableEq

/-- The request body as the handler consumes it.
  * `jsonError rawRead`: `request.json()` throws; `rawRead` is the
    outcome of the subsequent best-effort `request.text()` for
    diagnostic logging (`some raw` if the raw text could be read,
    `none` if that read throws too).
  * `parsed p`: `request.json()` succeeds with `p`. -/
inductive BodyInput where
  | jsonError (rawRead : Option String)
  | parsed (p : ParsedJson)
  deriving Repr, DecidableEq

/-- The inbound HTTP request as `actualValidateTokenHandler` observes
it: `request.method`, `request.url`, `request.query.get('validationtoken')`
(`none` when the parameter is absent), and the body. -/
structure Request where
  method : String
  url : String
  validationtoken : Option String
  body : BodyInput
  deriving Repr, DecidableEq

/-- The two environment variables read by the handler
(`process.env.SERVICE_BUS_CONNECTION_STRING`,
`process.env.SERVICE_BUS_QUEUE_NAME`); `none` models an unset
variable. -/
structure ProcessEnv where
  serviceBusConnectionString : Option String
  serviceBusQueueName : Option String
  deriving Repr, DecidableEq

/-- A queue message as built by the intake loop:
`{ body: notification, contentType: "application/json" }`. -/
structure QueueMessage where
  body : SharePointNotification
  contentType : String
  deriving Repr, DecidableEq

/-- One `context.log` / `context.warn` / `context.error` call, one
constructor per call site, carrying the dynamic data the site
interpolates (string formatting itself is not modelled). -/
inductive LogEvent where
  /-- `context.log` at handler entry (url, method). -/
  | requestReceived (url method : String)
  /-- `context.log` on the POST validation branch. -/
  | validationPost (token : String)
  /-- `context.error` when `request.json()` throws. -/
  | jsonParseError
  /-- `context.log` of the raw body after a JSON parse error. -/
  | rawPayloadOnError (raw : String)
  /-- `context.error` when even `request.text()` throws after a JSON
  parse error. -/
  | rawPayloadUnreadable
  /-- `context.log` on the `!parsedPayload` branch. -/
  | payloadEmptyOrMalformed
  /-- `context.log` of the full parsed payload. -/
  | fullPayload (p : ParsedJson)
  /-- `context.log` per notification in the intake loop. -/
  | processingNotification (n : SharePointNotification)
  /-- `context.log` when `changeType` is present. -/
  | changeTypeFound (c : String)
  /-- `context.warn` when `changeType` is missing. -/
  | changeTypeMissingWarn (n : SharePointNotification)
  /-- `context.warn` when the Service Bus environment variables are
  not set. -/
  | sbEnvMissingWarn
  /-- `context.log` on the GET validation branch. -/
  | validationGet (token : String)
  /-- `context.log` on GET without a token. -/
  | getNoToken
  /-- `context.log` for an unsupported method. -/
  | unsupportedMethod (m : String)
  /-- `context.error` in the outer catch of the handler. -/
  | handlerError
  /-- `context.log` before `sender.sendMessages` (count, queue). -/
  | sbAttemptSend (count : Nat) (queueName : String)
  /-- `context.log` after a successful send (count, queue). -/
  | sbSendSuccess (count : Nat) (queueName : String)
  /-- `context.error` when the send throws (queue, error message). -/
  | sbSendFailed (queueName : String) (err : String)
  /-- `context.log` after both closes succeed. -/
  | sbClosed
  /-- `context.error` when a close throws (error message). -/
  | sbCloseError (err : String)
  deriving Repr, DecidableEq

/-- Outcomes of the three external Service Bus SDK calls inside
`AzureServiceBusService.sendMessages`: `none` = the call returns
normally, `some e` = the call throws with message `e`. -/
structure SbEnv where
  sendError : Option String
  senderCloseError : Option String
  clientCloseError : Option String
  deriving Repr, DecidableEq

/-- Resource-management events performed by
`AzureServiceBusService.sendMessages`. -/
inductive SbEvent where
  /-- `sender.sendMessages(messages)` was invoked with `count`
  messages. -/
  | sendAttempted (count : Nat)
  /-- `sender.close()` was invoked. -/
  | senderCloseAttempted
  /-- `sbClient.close()` was invoked. -/
  | clientCloseAttempted
  deriving Repr, DecidableEq

/-- The observable outcome of one `sendMessages` call: the value
returned to (or exception propagated to) the caller, the log trace,
and the resource events, in program order. -/
structure SbRun where
  result : Except String Unit
  logs : List LogEvent
  events : List SbEvent
  deriving Repr

/-- The `AzureServiceBusService` instance state (the two fields set by
the constructor). -/
structure AzureServiceBusService where
  connectionString : String
  queueName : String
  deriving Repr, DecidableEq

/-- The `AzureServiceBusService` constructor.  Parameters model the
JavaScript call-time values (`none` = `undefined`); `!connectionString`
and `!queueName` are falsy-checks, so an absent or empty string throws
the corresponding configuration error. -/
def mkAzureServiceBusService (connectionString queueName : Option String) :
    Except String AzureServiceBusService :=
  if !jsTruthy connectionString then
    Except.error "Service Bus connection string is required."
  else if !jsTruthy queueName then
    Except.error "Service Bus queue name is required."
  else
    Except.ok { connectionString := connectionString.getD ""
                queueName := queueName.getD "" }

/-- `AzureServiceBusService.sendMessages`: try to send, catch + log +
re-throw a send failure, and in a `finally` block close the sender
then the client, catching and logging (but never propagating) a close
failure.  Note `sbClient.close()` runs only if `sender.close()` did
not throw (both awaits sit in one `try`). -/
def sendMessagesModel (queueName : String) (messages : List QueueMessage)
    (env : SbEnv) : SbRun :=
  let n := messages.length
  let tryOutcome : Except String Unit × List LogEvent :=
    match env.sendError with
    | none =>
      (Except.ok (), [LogEvent.sbAttemptSend n queueName,
                      LogEvent.sbSendSuccess n queueName])
    | some e =>
      (Except.error e, [LogEvent.sbAttemptSend n queueName,
                        LogEvent.sbSendFailed queueName e])
  let finallyOutcome : List LogEvent × List SbEvent :=
    match env.senderCloseError with
    | some ce =>
      ([LogEvent.sbCloseError ce], [SbEvent.senderCloseAttempted])
    | none =>
      match env.clientCloseError with
      | some ce =>
        ([LogEvent.sbCloseError ce],
         [SbEvent.senderCloseAttempted, SbEvent.clientCloseAttempted])
      | none =>
        ([LogEvent.sbClosed],
         [SbEvent.senderCloseAttempted, SbEvent.clientCloseAttempted])
  { result := tryOutcome.1
    logs := tryOutcome.2 ++ finallyOutcome.1
    events := SbEvent.sendAttempted n :: finallyOutcome.2 }

/-- The HTTP response (`HttpResponseInit`): status, the
`Content-Type` header when one is set, and the body string. -/
structure HttpResponse where
  status : Nat
  contentType : Option String
  body : String
  deriving Repr, DecidableEq

/-- The full observable outcome of one handler invocation: the HTTP
response, the log trace, and the batches passed to
`sbService.sendMessages` (one list entry per invocation). -/
structure HandlerOutput where
  response : HttpResponse
  logs : List LogEvent
  sendCalls : List (List QueueMessage)
  deriving Repr, DecidableEq

/-- Log calls made for one notification inside the intake loop. -/
def notificationLogs (n : SharePointNotification) : List LogEvent :=
  LogEvent.processingNotification n ::
    (match n.changeType with
     | some c => [LogEvent.changeTypeFound c]
     | none => [LogEvent.changeTypeMissingWarn n])

/-- The queue message pushed onto `messagesToSend` for one
notification: the entire notification object as the body, tagged
`application/json`. -/
def notificationToQueueMessage (n : SharePointNotification) : QueueMessage :=
  { body := n, contentType := "application/json" }

/-- The `messagesToSend` array built by the intake loop, in input
order. -/
def buildMessagesToSend (value : List SharePointNotification) :
    List QueueMessage :=
  value.map notificationToQueueMessage

/-- `actualValidateTokenHandler` (core logic, production wiring: no
`serviceBusServiceOverride`).  `env` models `process.env`, `sbEnv` the
transport outcomes of the single possible `sendMessages` call. -/
def actualValidateTokenHandler (req : Request) (env : ProcessEnv)
    (sbEnv : SbEnv) : HandlerOutput :=
  let baseLogs := [LogEvent.requestReceived req.url req.method]
  if req.method = "POST" then
    if jsTruthy req.validationtoken then
      let t := req.validationtoken.getD ""
      { response := { status := 200, contentType := some "text/plain", body := t }
        logs := baseLogs ++ [LogEvent.validationPost t]
        sendCalls := [] }
    else
      match req.body with
      | BodyInput.jsonError rawRead =>
        let rawLogs :=
          match rawRead with
          | some raw => [LogEvent.rawPayloadOnError raw]
          | none => [LogEvent.rawPayloadUnreadable]
        { response := { status := 400, contentType := none
                        body := "Invalid JSON payload for notification." }
          logs := baseLogs ++ [LogEvent.jsonParseError] ++ rawLogs
          sendCalls := [] }
      | BodyInput.parsed p =>
        match p with
        | ParsedJson.falsy =>
          -- `if (!parsedPayload)` is taken only for a falsy parsed value;
          -- the nested `if (parsedPayload)` log inside it is dead code.
          { response := { status := 400, contentType := none
                          body := "Notification payload is empty or malformed." }
            logs := baseLogs ++ [LogEvent.payloadEmptyOrMalformed]
            sendCalls := [] }
        | ParsedJson.noValueField =>
          if jsTruthy env.serviceBusConnectionString
              && jsTruthy env.serviceBusQueueName then
            -- `for (const notification of parsedPayload.value)` iterates
            -- `undefined`: a TypeError reaches the outer catch → 500.
            { response := { status := 500, contentType := none
                            body := "An internal error occurred while processing the request." }
              logs := baseLogs ++ [LogEvent.fullPayload p, LogEvent.handlerError]
              sendCalls := [] }
          else
            { response := { status := 202, contentType := none
                            body := "Notification acknowledged and queued for processing." }
              logs := baseLogs ++ [LogEvent.fullPayload p, LogEvent.sbEnvMissingWarn]
              sendCalls := [] }
        | ParsedJson.payload value =>
          if jsTruthy env.serviceBusConnectionString
              && jsTruthy env.serviceBusQueueName then
            match mkAzureServiceBusService env.serviceBusConnectionString
                env.serviceBusQueueName with
            | Except.error _ =>
              -- Unreachable: both coordinates are truthy here, so the
              -- constructor cannot throw; kept for faithfulness (a throw
              -- would reach the outer catch → 500).
              { response := { status := 500, contentType := none
                              body := "An internal error occurred while processing the request." }
                logs := baseLogs ++ [LogEvent.fullPayload p, LogEvent.handlerError]
                sendCalls := [] }
            | Except.ok sbService =>
              let loopLogs := value.flatMap notificationLogs
              let messagesToSend := buildMessagesToSend value
              if messagesToSend.length > 0 then
                let sbRun := sendMessagesModel sbService.queueName messagesToSend sbEnv
                -- `try { await sbService.sendMessages(...) } catch { }`:
                -- a send failure is swallowed, execution continues.
                { response := { status := 202, contentType := none
                                body := "Notification acknowledged and queued for processing." }
                  logs := baseLogs ++ [LogEvent.fullPayload p] ++ loopLogs ++ sbRun.logs
                  sendCalls := [messagesToSend] }
              else
                { response := { status := 202, contentType := none
                                body := "Notification acknowledged and queued for processing." }
                  logs := baseLogs ++ [LogEvent.fullPayload p] ++ loopLogs
                  sendCalls := [] }
          else
            { response := { status := 202, contentType := none
                            body := "Notification acknowledged and queued for processing." }
              logs := baseLogs ++ [LogEvent.fullPayload p, LogEvent.sbEnvMissingWarn]
              sendCalls := [] }
  else if req.method = "GET" then
    if jsTruthy req.validationtoken then
      let t := req.validationtoken.getD ""
      { response := { status := 200, contentType := some "text/plain", body := t }
        logs := baseLogs ++ [LogEvent.validationGet t]
        sendCalls := [] }
    else
      { response := { status := 405, contentType := none
                      body := "SharePoint webhooks use POST. Validation: POST with 'validationtoken' in query. Notifications: POST with payload in body." }
        logs := baseLogs ++ [LogEvent.getNoToken]
        sendCalls := [] }
  else
    { response := { status := 405, contentType := none
                    body := "Method " ++ req.method ++ " not allowed or not handled." }
      logs := baseLogs ++ [LogEvent.unsupportedMethod req.method]
      sendCalls := [] }

/-! ## Claim theorems -/

/-- C1: for every non-empty string V, a GET or POST request whose query
carries `validationtoken=V` yields a response with status 200, header
`Content-Type: text/plain`, and body exactly V, unmodified. -/
theorem validation_echo_c1 (m url t : String) (b : BodyInput)
    (env : ProcessEnv) (sbEnv : SbEnv)
    (hm : m = "POST" ∨ m = "GET") (ht : t ≠ "") :
    (actualValidateTokenHandler ⟨m, url, some t, b⟩ env sbEnv).response =
      { status := 200, contentType := some "text/plain", body := t } := by
  rcases hm with h | h <;> subst h <;>
    simp [actualValidateTokenHandler, jsTruthy, ht]

/-- Witness for C1 at the concrete token `"tok"` over POST. -/
theorem validation_echo_c1_witness :
    ("POST" = "POST" ∨ "POST" = "GET") ∧ "tok" ≠ "" ∧
    (actualValidateTokenHandler
        ⟨"POST", "u", some "tok", BodyInput.parsed ParsedJson.falsy⟩
        ⟨none, none⟩ ⟨none, none, none⟩).response =
      { status := 200, contentType := some "text/plain", body := "tok" } :=
  ⟨Or.inl rfl, by decide,
   validation_echo_c1 "POST" "u" "tok" (BodyInput.parsed ParsedJson.falsy)
     ⟨none, none⟩ ⟨none, none, none⟩ (Or.inl rfl) (by decide)⟩

/-- C2: for every POST request without a validation token whose body
parses to a valid (non-empty, so that a publish call happens)
notification batch, if the destination coordinates are configured and
the publisher's send throws, the handler still returns status 202, and
the send failure has been logged (by the publisher) before being
swallowed. -/
theorem publish_failure_swallowed_c2 (tok : Option String) (url : String)
    (value : List SharePointNotification) (env : ProcessEnv)
    (e : String) (ce1 ce2 : Option String)
    (ht : jsTruthy tok = false)
    (hcs : jsTruthy env.serviceBusConnectionString = true)
    (hqn : jsTruthy env.serviceBusQueueName = true)
    (hne : value ≠ []) :
    (actualValidateTokenHandler
        ⟨"POST", url, tok, BodyInput.parsed (ParsedJson.payload value)⟩
        env ⟨some e, ce1, ce2⟩).response.status = 202 ∧
    LogEvent.sbSendFailed (env.serviceBusQueueName.getD "") e ∈
      (actualValidateTokenHandler
        ⟨"POST", url, tok, BodyInput.parsed (ParsedJson.payload value)⟩
        env ⟨some e, ce1, ce2⟩).logs := by
  cases value with
  | nil => exact absurd rfl hne
  | cons v vs =>
    simp [actualValidateTokenHandler, ht, hcs, hqn, mkAzureServiceBusService,
      buildMessagesToSend, sendMessagesModel]

/-- Witness for C2: one notification, a failing send. -/
theorem publish_failure_swallowed_c2_witness :
    jsTruthy (none : Option String) = false ∧
    jsTruthy (some "Endpoint=sb") = true ∧
    jsTruthy (some "queue1") = true ∧
    ([⟨"s1", none, "2030-01-01T00:00:00Z", "r1", "t1", "/sites/x", "w1", some "added"⟩] :
        List SharePointNotification) ≠ [] ∧
    ((actualValidateTokenHandler
        ⟨"POST", "u", none, BodyInput.parsed (ParsedJson.payload
          [⟨"s1", none, "2030-01-01T00:00:00Z", "r1", "t1", "/sites/x", "w1", some "added"⟩])⟩
        ⟨some "Endpoint=sb", some "queue1"⟩ ⟨some "boom", none, none⟩).response.status = 202 ∧
      LogEvent.sbSendFailed ((some "queue1").getD "") "boom" ∈
        (actualValidateTokenHandler
          ⟨"POST", "u", none, BodyInput.parsed (ParsedJson.payload
            [⟨"s1", none, "2030-01-01T00:00:00Z", "r1", "t1", "/sites/x", "w1", some "added"⟩])⟩
          ⟨some "Endpoint=sb", some "queue1"⟩ ⟨some "boom", none, none⟩).logs) :=
  ⟨by decide, by decide, by decide, by decide,
   publish_failure_swallowed_c2 none "u"
     [⟨"s1", none, "2030-01-01T00:00:00Z", "r1", "t1", "/sites/x", "w1", some "added"⟩]
     ⟨some "Endpoint=sb", some "queue1"⟩ "boom" none none
     (by decide) (by decide) (by decide) (by decide)⟩

/-- C3 (code bug): a POST without a validation token whose body decodes
as JSON to a truthy value with no top-level `value` field does NOT get
status 400.  The guard `if (!parsedPayload)` only checks truthiness, so
such a payload (e.g. `{"foo":1}`) passes it; with the Service Bus
coordinates configured, `for (const n of parsedPayload.value)` then
iterates `undefined`, the TypeError reaches the outer catch and the
handler returns 500; without the coordinates, it returns 202.  The 400
malformed branch is reached only by falsy decoded values. -/
theorem no_value_field_not_bad_request_c3 :
    (actualValidateTokenHandler
        ⟨"POST", "u", none, BodyInput.parsed ParsedJson.noValueField⟩
        ⟨some "Endpoint=sb", some "queue1"⟩ ⟨none, none, none⟩).response.status = 500 ∧
    (actualValidateTokenHandler
        ⟨"POST", "u", none, BodyInput.parsed ParsedJson.noValueField⟩
        ⟨none, none⟩ ⟨none, none, none⟩).response.status = 202 ∧
    (actualValidateTokenHandler
        ⟨"POST", "u", none, BodyInput.parsed ParsedJson.falsy⟩
        ⟨some "Endpoint=sb", some "queue1"⟩ ⟨none, none, none⟩).response.status = 400 :=
  ⟨rfl, rfl, rfl⟩

/-- C4: the transformation of a parsed batch into queue messages is 1:1
and order-preserving: the lengths agree and the i-th queue message
carries exactly the i-th notification as its body (hence every field,
including an absent `changeType`, unchanged), tagged
`application/json`. -/
theorem transform_one_to_one_c4 (value : List SharePointNotification) :
    (buildMessagesToSend value).length = value.length ∧
    ∀ i : Fin value.length,
      ((buildMessagesToSend value).get
          (Fin.cast (List.length_map value notificationToQueueMessage).symm i)).body
        = value.get i ∧
      ((buildMessagesToSend value).get
          (Fin.cast (List.length_map value notificationToQueueMessage).symm i)).contentType
        = "application/json" ∧
      ((buildMessagesToSend value).get
          (Fin.cast (List.length_map value notificationToQueueMessage).symm i)).body.changeType
        = (value.get i).changeType := by
  refine ⟨by simp [buildMessagesToSend], fun i => ?_⟩
  simp [buildMessagesToSend, notificationToQueueMessage]

/-- C5: a POST without a validation token whose body is
`{"value":[]}` yields status 202 and `sendMessages` is never
invoked, regardless of configuration. -/
theorem empty_batch_acknowledged_c5 (tok : Option String) (url : String)
    (env : ProcessEnv) (sbEnv : SbEnv) (ht : jsTruthy tok = false) :
    (actualValidateTokenHandler
        ⟨"POST", url, tok, BodyInput.parsed (ParsedJson.payload [])⟩
        env sbEnv).response.status = 202 ∧
    (actualValidateTokenHandler
        ⟨"POST", url, tok, BodyInput.parsed (ParsedJson.payload [])⟩
        env sbEnv).sendCalls = [] := by
  by_cases hc : (jsTruthy env.serviceBusConnectionString
      && jsTruthy env.serviceBusQueueName) = true
  · have hcs : jsTruthy env.serviceBusConnectionString = true :=
      (Bool.and_eq_true _ _ ▸ hc).1
    have hqn : jsTruthy env.serviceBusQueueName = true :=
      (Bool.and_eq_true _ _ ▸ hc).2
    simp [actualValidateTokenHandler, ht, hcs, hqn, mkAzureServiceBusService,
      buildMessagesToSend]
  · simp [actualValidateTokenHandler, ht, Bool.not_eq_true _ ▸ hc,
      buildMessagesToSend]

/-- Witness for C5: no token, unset environment. -/
theorem empty_batch_acknowledged_c5_witness :
    jsTruthy (none : Option String) = false ∧
    ((actualValidateTokenHandler
        ⟨"POST", "u", none, BodyInput.parsed (ParsedJson.payload [])⟩
        ⟨none, none⟩ ⟨none, none, none⟩).response.status = 202 ∧
      (actualValidateTokenHandler
        ⟨"POST", "u", none, BodyInput.parsed (ParsedJson.payload [])⟩
        ⟨none, none⟩ ⟨none, none, none⟩).sendCalls = []) :=
  ⟨by decide,
   empty_batch_acknowledged_c5 none "u" ⟨none, none⟩ ⟨none, none, none⟩ (by decide)⟩

/-- C6: a POST without a validation token whose body cannot be decoded
as JSON yields status 400 with the invalid-JSON body; whether the
best-effort raw-body capture succeeds (`rawRead = some raw`) or itself
fails (`rawRead = none`), the response is the same and the primary
parse error is logged. -/
theorem invalid_json_bad_request_c6 (tok : Option String) (url : String)
    (rawRead : Option String) (env : ProcessEnv) (sbEnv : SbEnv)
    (ht : jsTruthy tok = false) :
    (actualValidateTokenHandler
        ⟨"POST", url, tok, BodyInput.jsonError rawRead⟩ env sbEnv).response =
      { status := 400, contentType := none
        body := "Invalid JSON payload for notification." } ∧
    LogEvent.jsonParseError ∈
      (actualValidateTokenHandler
        ⟨"POST", url, tok, BodyInput.jsonError rawRead⟩ env sbEnv).logs := by
  cases rawRead <;> simp [actualValidateTokenHandler, ht]

/-- Witness for C6 with an unreadable raw body. -/
theorem invalid_json_bad_request_c6_witness :
    jsTruthy (none : Option String) = false ∧
    ((actualValidateTokenHandler
        ⟨"POST", "u", none, BodyInput.jsonError none⟩
        ⟨none, none⟩ ⟨none, none, none⟩).response =
      { status := 400, contentType := none
        body := "Invalid JSON payload for notification." } ∧
      LogEvent.jsonParseError ∈
        (actualValidateTokenHandler
          ⟨"POST", "u", none, BodyInput.jsonError none⟩
          ⟨none, none⟩ ⟨none, none, none⟩).logs) :=
  ⟨by decide,
   invalid_json_bad_request_c6 none "u" none ⟨none, none⟩ ⟨none, none, none⟩ (by decide)⟩

/-- C7: a POST without a validation token whose body parses to a valid
notification batch, when a destination coordinate is absent (the
configured check fails), logs a warning, makes no publish attempt, and
still returns status 202. -/
theorem unconfigured_acknowledged_c7 (tok : Option String) (url : String)
    (value : List SharePointNotification) (env : ProcessEnv) (sbEnv : SbEnv)
    (ht : jsTruthy tok = false)
    (hcfg : (jsTruthy env.serviceBusConnectionString
        && jsTruthy env.serviceBusQueueName) = false) :
    (actualValidateTokenHandler
        ⟨"POST", url, tok, BodyInput.parsed (ParsedJson.payload value)⟩
        env sbEnv).response.status = 202 ∧
    (actualValidateTokenHandler
        ⟨"POST", url, tok, BodyInput.parsed (ParsedJson.payload value)⟩
        env sbEnv).sendCalls = [] ∧
    LogEvent.sbEnvMissingWarn ∈
      (actualValidateTokenHandler
        ⟨"POST", url, tok, BodyInput.parsed (ParsedJson.payload value)⟩
        env sbEnv).logs := by
  simp [actualValidateTokenHandler, ht, hcfg]

/-- Witness for C7: one notification, queue name missing. -/
theorem unconfigured_acknowledged_c7_witness :
    jsTruthy (none : Option String) = false ∧
    (jsTruthy (some "Endpoint=sb") && jsTruthy (none : Option String)) = false ∧
    ((actualValidateTokenHandler
        ⟨"POST", "u", none, BodyInput.parsed (ParsedJson.payload
          [⟨"s1", none, "2030-01-01T00:00:00Z", "r1", "t1", "/sites/x", "w1", none⟩])⟩
        ⟨some "Endpoint=sb", none⟩ ⟨none, none, none⟩).response.status = 202 ∧
      (actualValidateTokenHandler
        ⟨"POST", "u", none, BodyInput.parsed (ParsedJson.payload
          [⟨"s1", none, "2030-01-01T00:00:00Z", "r1", "t1", "/sites/x", "w1", none⟩])⟩
        ⟨some "Endpoint=sb", none⟩ ⟨none, none, none⟩).sendCalls = [] ∧
      LogEvent.sbEnvMissingWarn ∈
        (actualValidateTokenHandler
          ⟨"POST", "u", none, BodyInput.parsed (ParsedJson.payload
            [⟨"s1", none, "2030-01-01T00:00:00Z", "r1", "t1", "/sites/x", "w1", none⟩])⟩
          ⟨some "Endpoint=sb", none⟩ ⟨none, none, none⟩).logs) :=
  ⟨by decide, by decide,
   unconfigured_acknowledged_c7 none "u"
     [⟨"s1", none, "2030-01-01T00:00:00Z", "r1", "t1", "/sites/x", "w1", none⟩]
     ⟨some "Endpoint=sb", none⟩ ⟨none, none, none⟩ (by decide) (by decide)⟩

/-- C8: in `sendMessages`, the release step runs on every exit path
(`sender.close()` is always invoked, and `sbClient.close()` whenever
`sender.close()` did not throw), a failure during release is logged,
and the result returned to the caller is decided by the send outcome
alone — success is reported even when release failed, and a send error
(never a release error) is the one propagated. -/
theorem send_release_contract_c8 (queueName : String)
    (messages : List QueueMessage) (env : SbEnv) :
    (sendMessagesModel queueName messages env).result =
      (match env.sendError with
       | none => Except.ok ()
       | some e => Except.error e) ∧
    SbEvent.senderCloseAttempted ∈ (sendMessagesModel queueName messages env).events ∧
    (SbEvent.clientCloseAttempted ∈ (sendMessagesModel queueName messages env).events ↔
      env.senderCloseError = none) ∧
    (match env.senderCloseError, env.clientCloseError with
     | some ce, _ =>
       LogEvent.sbCloseError ce ∈ (sendMessagesModel queueName messages env).logs
     | none, some ce =>
       LogEvent.sbCloseError ce ∈ (sendMessagesModel queueName messages env).logs
     | none, none =>
       LogEvent.sbClosed ∈ (sendMessagesModel queueName messages env).logs) := by
  obtain ⟨se, sce, cce⟩ := env
  cases se <;> cases sce <;> cases cce <;> simp [sendMessagesModel]

/-- Witness for C8: a failing send together with a failing sender
close, at a concrete queue. -/
theorem send_release_contract_c8_witness :
    (sendMessagesModel "queue1" [] ⟨some "boom", some "closefail", none⟩).result =
      Except.error "boom" ∧
    SbEvent.senderCloseAttempted ∈
      (sendMessagesModel "queue1" [] ⟨some "boom", some "closefail", none⟩).events ∧
    (SbEvent.clientCloseAttempted ∈
        (sendMessagesModel "queue1" [] ⟨some "boom", some "closefail", none⟩).events ↔
      (some "closefail" : Option String) = none) ∧
    LogEvent.sbCloseError "closefail" ∈
      (sendMessagesModel "queue1" [] ⟨some "boom", some "closefail", none⟩).logs :=
  send_release_contract_c8 "queue1" [] ⟨some "boom", some "closefail", none⟩

/-- C9: constructing the publisher succeeds exactly when both the
connection string and the queue name are present and non-empty; in
every other case the constructor returns the thrown configuration
error (fail-fast, with no publish attempted — the constructor performs
no send). -/
theorem constructor_fail_fast_c9 (cs qn : Option String) :
    (mkAzureServiceBusService cs qn).isOk = (jsTruthy cs && jsTruthy qn) := by
  cases hcs : jsTruthy cs <;> cases hqn : jsTruthy qn <;>
    simp [mkAzureServiceBusService, hcs, hqn, Except.isOk, Except.toBool]

/-- C10: on the POST validation branch the response is computed without
the request body: two requests that differ only in their bodies —
including an undecodable body — produce identical handler outputs. -/
theorem token_branch_ignores_body_c10 (url t : String) (b1 b2 : BodyInput)
    (env : ProcessEnv) (sbEnv : SbEnv) (ht : t ≠ "") :
    actualValidateTokenHandler ⟨"POST", url, some t, b1⟩ env sbEnv =
      actualValidateTokenHandler ⟨"POST", url, some t, b2⟩ env sbEnv := by
  simp [actualValidateTokenHandler, jsTruthy, ht]

/-- Witness for C10: an undecodable body versus an empty batch. -/
theorem token_branch_ignores_body_c10_witness :
    "tok" ≠ "" ∧
    actualValidateTokenHandler
        ⟨"POST", "u", some "tok", BodyInput.jsonError none⟩
        ⟨none, none⟩ ⟨none, none, none⟩ =
      actualValidateTokenHandler
        ⟨"POST", "u", some "tok", BodyInput.parsed (ParsedJson.payload [])⟩
        ⟨none, none⟩ ⟨none, none, none⟩ :=
  ⟨by decide,
   token_branch_ignores_body_c10 "u" "tok" (BodyInput.jsonError none)
     (BodyInput.parsed (ParsedJson.payload []))
     ⟨none, none⟩ ⟨none, none, none⟩ (by decide)⟩
